import Mathlib

/-!
Shallow embedding of `tof-calculator` (src/main.rs), a command-line
neutron time-of-flight → kinetic-energy calculator.

Modelling conventions:
* Rust `f32` values are modelled by the inductive type `F`: finite values
  are exact rationals (rounding of `f32` arithmetic is not modelled; the
  spec's claims are stated over canonical values and formula structure),
  plus IEEE special values `inf`, `neginf`, `nan` with IEEE comparison and
  arithmetic on the cases the program exercises.  Negative zero is
  identified with zero (IEEE `-0.0 == 0.0` holds, so the program cannot
  distinguish them through the operations it performs).
* Rust strings (`&str` / `String`) are modelled as `List Char` (`Str`).
  `str::trim` and `str::to_lowercase` are modelled over ASCII, which
  covers every token the alias tables contain.
* The `uom` library calls used by the program are modelled by their
  documented behaviour: `Quantity::new::<U>(v)` stores `v` times the
  unit's conversion coefficient into the base unit, `==` compares the
  stored values, and `into_format_args(U, Abbreviation)` renders the
  stored value divided by `U`'s coefficient, a space, and `U`'s
  abbreviation.
-/

/-- Character strings of the Rust program, modelled as lists of characters. -/
abbrev Str := List Char

/-- ASCII whitespace recognised by the model of `str::trim`. -/
def isWs (c : Char) : Bool :=
  c = ' ' ∨ c = '\t' ∨ c = '\n' ∨ c = '\r' ∨ c = '\x0b' ∨ c = '\x0c'

/-- ASCII case folding, modelling `str::to_lowercase` on the tokens involved. -/
def toLowerChar (c : Char) : Char :=
  if 'A' ≤ c ∧ c ≤ 'Z' then Char.ofNat (c.toNat + 32) else c

/-- Model of `str::trim`: drop whitespace from both ends. -/
def trimChars (s : Str) : Str :=
  ((s.dropWhile isWs).reverse.dropWhile isWs).reverse

/-- The token normalisation `unit.trim().to_lowercase()` applied by every parser. -/
def foldTok (s : Str) : Str :=
  (trimChars s).map toLowerChar

/-- Model of Rust `f32`: exact rationals for finite values plus the IEEE
special values.  Negative zero is identified with zero. -/
inductive F where
  | finite (q : ℚ)
  | inf
  | neginf
  | nan
deriving DecidableEq, Repr

/-- IEEE equality test (`==` on `f32`, hence on `uom` quantities):
`nan` is unequal to everything, including itself. -/
def fbeq : F → F → Bool
  | .finite a, .finite b => a = b
  | .inf, .inf => true
  | .neginf, .neginf => true
  | _, _ => false

/-- IEEE multiplication on the modelled values (`nan` propagates;
`0 × ∞ = nan`; finite products are exact, rounding not modelled). -/
def fmul : F → F → F
  | .nan, _ => .nan
  | .finite a, .finite b => .finite (a * b)
  | .finite a, .inf => if 0 < a then .inf else if a < 0 then .neginf else .nan
  | .finite a, .neginf => if 0 < a then .neginf else if a < 0 then .inf else .nan
  | .inf, .finite b => if 0 < b then .inf else if b < 0 then .neginf else .nan
  | .neginf, .finite b => if 0 < b then .neginf else if b < 0 then .inf else .nan
  | .inf, .inf => .inf
  | .inf, .neginf => .neginf
  | .neginf, .inf => .neginf
  | .neginf, .neginf => .inf
  | _, .nan => .nan

/-- IEEE division on the modelled values (`x/0` gives a signed infinity or
`nan`; `x/∞ = 0`; `∞/∞ = nan`; finite quotients are exact). -/
def fdiv : F → F → F
  | .nan, _ => .nan
  | .finite a, .finite b =>
      if b = 0 then (if a = 0 then .nan else if 0 < a then .inf else .neginf)
      else .finite (a / b)
  | .finite _, .inf => .finite 0
  | .finite _, .neginf => .finite 0
  | .inf, .finite b => if b < 0 then .neginf else .inf
  | .neginf, .finite b => if b < 0 then .inf else .neginf
  | .inf, .inf => .nan
  | .inf, .neginf => .nan
  | .neginf, .inf => .nan
  | .neginf, .neginf => .nan
  | _, .nan => .nan

/-- The error enum `UnsupportedUnitError` of main.rs, one variant per
domain, each carrying the offending token. -/
inductive UnsupportedUnitError where
  | Length (unit : Str)
  | Time (unit : Str)
  | Energy (unit : Str)
deriving DecidableEq, Repr

/-- The error enum `DivideByZeroError` of main.rs. -/
inductive DivideByZeroError where
  | LengthIsZero
  | TimeIsZero
deriving DecidableEq, Repr

/-- Display text of `UnsupportedUnitError` (its `fmt::Display` impl). -/
def unsupportedUnitMsg : UnsupportedUnitError → Str
  | .Length u => "Unsupported length unit: ".data ++ u
  | .Time u => "Unsupported time unit: ".data ++ u
  | .Energy u => "Unsupported energy unit: ".data ++ u

/-- Display text of `DivideByZeroError` (its `fmt::Display` impl). -/
def divideByZeroMsg : DivideByZeroError → Str
  | .LengthIsZero => "Length is zero, cannot divide by zero".data
  | .TimeIsZero => "Time is zero, cannot divide by zero".data

/-- Conversion coefficient of `uom::si::length::centimeter` into meters. -/
def centimeterC : ℚ := 1 / 100

/-- Conversion coefficient of `uom::si::length::meter` into meters. -/
def meterC : ℚ := 1

/-- Conversion coefficient of `uom::si::length::kilometer` into meters. -/
def kilometerC : ℚ := 1000

/-- Conversion coefficient of `uom::si::time::nanosecond` into seconds. -/
def nanosecondC : ℚ := 1 / 10 ^ 9

/-- Conversion coefficient of `uom::si::time::microsecond` into seconds. -/
def microsecondC : ℚ := 1 / 10 ^ 6

/-- Conversion coefficient of `uom::si::time::millisecond` into seconds. -/
def millisecondC : ℚ := 1 / 10 ^ 3

/-- Conversion coefficient of `uom::si::time::second` into seconds. -/
def secondC : ℚ := 1

/-- Model of `Quantity::new::<U>(v)` from the `uom` library: the stored
canonical value is the magnitude times the unit's conversion coefficient. -/
def quantityNew (coeff : ℚ) (v : F) : F :=
  fmul v (F.finite coeff)

/-- The neutron mass constant of `calculate_energy`: `1.67493e-27` kg. -/
def neutronMassQ : ℚ := 167493 / 10 ^ 32

/-- `calculate_energy` from main.rs: reject a zero time (checked first),
then a zero length, both by IEEE equality against `0.0`; otherwise return
`m · length² / (2 · time²)` with the source's grouping of operations. -/
def calculate_energy (time length : F) : Except DivideByZeroError F :=
  if fbeq time (F.finite 0) then .error .TimeIsZero
  else if fbeq length (F.finite 0) then .error .LengthIsZero
  else .ok (fdiv (fmul (F.finite neutronMassQ) (fmul length length))
                 (fmul (fmul (F.finite 2) time) time))

/-- `parse_length` from main.rs: trim and lowercase the token, match it
against the length alias table, and build the quantity in meters; an
unmatched token fails with `UnsupportedUnitError::Length` carrying the
token passed in. -/
def parse_length (quantity : F) (unit : Str) : Except UnsupportedUnitError F :=
  let u := foldTok unit
  if u = "cm".data ∨ u = "centimeter".data ∨ u = "centimeters".data then
    .ok (quantityNew centimeterC quantity)
  else if u = "m".data ∨ u = "meter".data ∨ u = "meters".data then
    .ok (quantityNew meterC quantity)
  else if u = "km".data ∨ u = "kilometer".data ∨ u = "kilometers".data then
    .ok (quantityNew kilometerC quantity)
  else .error (.Length unit)

/-- `parse_time` from main.rs: analogous to `parse_length`, building the
quantity in seconds. -/
def parse_time (quantity : F) (unit : Str) : Except UnsupportedUnitError F :=
  let u := foldTok unit
  if u = "ns".data ∨ u = "nanosecond".data ∨ u = "nanoseconds".data then
    .ok (quantityNew nanosecondC quantity)
  else if u = "mus".data ∨ u = "us".data ∨ u = "microsecond".data ∨ u = "microseconds".data then
    .ok (quantityNew microsecondC quantity)
  else if u = "ms".data ∨ u = "millisecond".data ∨ u = "milliseconds".data then
    .ok (quantityNew millisecondC quantity)
  else if u = "s".data ∨ u = "second".data ∨ u = "seconds".data then
    .ok (quantityNew secondC quantity)
  else .error (.Time unit)

/-- The `EnergyUnit` enum of main.rs. -/
inductive EnergyUnit where
  | Electronvolt
  | Kiloelectronvolt
  | Megaelectronvolt
  | Gigaelectronvolt
  | Joule
deriving DecidableEq, Repr

/-- `parse_energy_unit` from main.rs: trim and lowercase the token and
match it against the energy alias table; an unmatched token fails with
`UnsupportedUnitError::Energy` carrying the token passed in. -/
def parse_energy_unit (unit : Str) : Except UnsupportedUnitError EnergyUnit :=
  let u := foldTok unit
  if u = "ev".data ∨ u = "electronvolt".data ∨ u = "electronvolts".data then
    .ok .Electronvolt
  else if u = "kev".data ∨ u = "kiloelectronvolt".data ∨ u = "kiloelectronvolts".data then
    .ok .Kiloelectronvolt
  else if u = "mev".data ∨ u = "megaelectronvolt".data ∨ u = "megaelectronvolts".data then
    .ok .Megaelectronvolt
  else if u = "gev".data ∨ u = "gigaelectronvolt".data ∨ u = "gigaelectronvolts".data then
    .ok .Gigaelectronvolt
  else if u = "j".data ∨ u = "joule".data ∨ u = "joules".data then
    .ok .Joule
  else .error (.Energy unit)

/-- ASCII digit test, for the model of Rust's float grammar. -/
def isDigit (c : Char) : Bool := '0' ≤ c ∧ c ≤ '9'

/-- Numeric value of a digit string read in base 10. -/
def digitsNat (l : Str) : ℕ :=
  l.foldl (fun acc c => acc * 10 + (c.toNat - '0'.toNat)) 0

/-- Value of a fractional digit string (the part after the decimal point). -/
def fracVal (l : Str) : ℚ :=
  (digitsNat l : ℚ) / 10 ^ l.length

/-- Mantissa of Rust's float grammar: `Digit+ ('.' Digit*)? | Digit* '.' Digit+`. -/
def parseDec (l : Str) : Option ℚ :=
  let intPart := l.takeWhile isDigit
  match l.dropWhile isDigit with
  | [] => if intPart = [] then none else some (digitsNat intPart)
  | '.' :: frac =>
      if frac.all isDigit ∧ (intPart ≠ [] ∨ frac ≠ []) then
        some ((digitsNat intPart : ℚ) + fracVal frac)
      else none
  | _ => none

/-- Exponent of Rust's float grammar: an optionally signed nonempty digit
string after `e`/`E`. -/
def parseExpPart (l : Str) : Option ℤ :=
  match l with
  | '+' :: r => if r ≠ [] ∧ r.all isDigit then some (digitsNat r) else none
  | '-' :: r => if r ≠ [] ∧ r.all isDigit then some (-(digitsNat r : ℤ)) else none
  | r => if r ≠ [] ∧ r.all isDigit then some (digitsNat r) else none

/-- Split a token at its first `e`/`E`, separating mantissa from exponent. -/
def splitExp : Str → Str × Option Str
  | [] => ([], none)
  | c :: r =>
      if c = 'e' ∨ c = 'E' then ([], some r)
      else
        let p := splitExp r
        (c :: p.1, p.2)

/-- Scale a rational by a power of ten given as an integer exponent. -/
def applyExp (m : ℚ) (e : ℤ) : ℚ :=
  if 0 ≤ e then m * 10 ^ e.toNat else m / 10 ^ (-e).toNat

/-- Model of `f32::from_str` (the grammar of Rust's float parsing; the
value of a finite literal is kept as an exact rational, `f32` rounding and
overflow to infinity are not modelled): optional sign, then `inf`,
`infinity` or `nan` case-insensitively, or a decimal mantissa with an
optional exponent. -/
def parseF32 (s : Str) : Option F :=
  let signAndRest : ℚ × Str :=
    match s with
    | '+' :: r => (1, r)
    | '-' :: r => (-1, r)
    | r => (1, r)
  let sign := signAndRest.1
  let rest := signAndRest.2
  let low := rest.map toLowerChar
  if low = "inf".data ∨ low = "infinity".data then
    some (if sign = 1 then F.inf else F.neginf)
  else if low = "nan".data then some F.nan
  else
    match splitExp rest with
    | (mant, none) =>
        match parseDec mant with
        | none => none
        | some m => some (F.finite (sign * m))
    | (mant, some ex) =>
        match parseDec mant, parseExpPart ex with
        | some m, some e => some (F.finite (sign * applyExp m e))
        | _, _ => none

/-- Conversion coefficient of each `uom` energy unit into joules
(`electronvolt` is the CODATA elementary charge in joules). -/
def energyCoeff : EnergyUnit → ℚ
  | .Electronvolt => 1602176634 / 10 ^ 28
  | .Kiloelectronvolt => 1602176634 / 10 ^ 25
  | .Megaelectronvolt => 1602176634 / 10 ^ 22
  | .Gigaelectronvolt => 1602176634 / 10 ^ 19
  | .Joule => 1

/-- Abbreviation the `uom` library prints for each energy unit under
`DisplayStyle::Abbreviation`. -/
def energyAbbr : EnergyUnit → Str
  | .Electronvolt => "eV".data
  | .Kiloelectronvolt => "keV".data
  | .Megaelectronvolt => "MeV".data
  | .Gigaelectronvolt => "GeV".data
  | .Joule => "J".data

/-- Numeric value displayed by `into_format_args(U, Abbreviation)`: the
canonical joule value divided by the unit's coefficient. -/
def convertEnergy (e : F) (u : EnergyUnit) : F :=
  fdiv e (F.finite (energyCoeff u))

/-- Stand-in for the textual rendering of an `f32` value (the exact digit
string Rust prints is not modelled; no claim depends on it). -/
def renderF : F → Str
  | .finite q => (toString q).data
  | .inf => "inf".data
  | .neginf => "-inf".data
  | .nan => "NaN".data

/-- Outcome of one program run: the stdout line on success, or the stderr
line together with the process exit code on failure. -/
inductive MainResult where
  | success (line : Str)
  | failure (stderrLine : Str) (exitCode : ℕ)
deriving DecidableEq, Repr

/-- The `main` function of main.rs, given the two tokens of
`--length-of-flight-path`, the two tokens of `--time-of-flight` and the
token of `--unit`.  It mirrors the source order exactly: numeric parse of
the length then the time magnitude (each failure prints to stderr and
`return`s from `main`, so the process exits with code 0), folding of the
unit tokens, `parse_length`, `parse_time` (failures exit with code 1),
folding of the energy-unit token, `calculate_energy`, and only then
`parse_energy_unit`; on success it prints the single formatted line. -/
def runMain (lengthTok lengthUnitTok timeTok timeUnitTok unitTok : Str) : MainResult :=
  match parseF32 lengthTok with
  | none => .failure ("Error: parsing length value: invalid float literal".data) 0
  | some lengthVal =>
    match parseF32 timeTok with
    | none => .failure ("Error: parsing time value: invalid float literal".data) 0
    | some timeVal =>
      let inputLengthUnit := foldTok lengthUnitTok
      let inputTimeUnit := foldTok timeUnitTok
      match parse_length lengthVal inputLengthUnit with
      | .error e => .failure ("Error: ".data ++ unsupportedUnitMsg e) 1
      | .ok lengthQuantity =>
        match parse_time timeVal inputTimeUnit with
        | .error e => .failure ("Error: ".data ++ unsupportedUnitMsg e) 1
        | .ok timeQuantity =>
          let outputEnergyUnit := foldTok unitTok
          match calculate_energy timeQuantity lengthQuantity with
          | .error e => .failure ("Error: ".data ++ divideByZeroMsg e) 1
          | .ok energyQuantity =>
            match parse_energy_unit outputEnergyUnit with
            | .error e => .failure ("Error: ".data ++ unsupportedUnitMsg e) 1
            | .ok energyUnit =>
              .success ("Energy = ".data
                ++ renderF (convertEnergy energyQuantity energyUnit)
                ++ " ".data ++ energyAbbr energyUnit)

/-- The program when `--unit` is omitted: clap substitutes the declared
default value `"eV"` before `main` reads it. -/
def runMainDefaultUnit (lengthTok lengthUnitTok timeTok timeUnitTok : Str) : MainResult :=
  runMain lengthTok lengthUnitTok timeTok timeUnitTok "eV".data

/-! ### Helper lemmas -/

/-- Dropping while a predicate holds skips a prefix on which it holds everywhere. -/
theorem dropWhile_append_of_all (p : Char → Bool) (l1 l2 : Str)
    (h : ∀ x ∈ l1, p x = true) : (l1 ++ l2).dropWhile p = l2.dropWhile p := by
  induction l1 with
  | nil => rfl
  | cons c t ih =>
      rw [List.cons_append, List.dropWhile_cons_of_pos (h c (List.mem_cons_self c t))]
      exact ih fun x hx => h x (List.mem_cons_of_mem c hx)

/-- Dropping while a predicate holds leaves a list untouched when the
predicate fails on every element. -/
theorem dropWhile_eq_self_of_neg (p : Char → Bool) (l : Str) (hne : l ≠ [])
    (h : ∀ x ∈ l, p x = false) : l.dropWhile p = l := by
  cases l with
  | nil => exact absurd rfl hne
  | cons c t =>
      exact List.dropWhile_cons_of_neg (by simp [h c (List.mem_cons_self c t)])

/-- Trimming strips arbitrary whitespace padding around a nonempty
whitespace-free core. -/
theorem trimChars_pad (ws1 ws2 s : Str) (h1 : ∀ x ∈ ws1, isWs x = true)
    (h2 : ∀ x ∈ ws2, isWs x = true) (hne : s ≠ [])
    (hnw : ∀ x ∈ s, isWs x = false) : trimChars (ws1 ++ s ++ ws2) = s := by
  have hsws : (s ++ ws2).dropWhile isWs = s ++ ws2 := by
    cases s with
    | nil => exact absurd rfl hne
    | cons c t =>
        exact List.dropWhile_cons_of_neg (by simp [hnw c (List.mem_cons_self c t)])
  unfold trimChars
  rw [List.append_assoc, dropWhile_append_of_all _ _ _ h1, hsws, List.reverse_append,
    dropWhile_append_of_all _ _ _ (fun x hx => h2 x (List.mem_reverse.mp hx)),
    dropWhile_eq_self_of_neg _ _ (by simp [hne]) (fun x hx => hnw x (List.mem_reverse.mp hx)),
    List.reverse_reverse]

/-- Case folding fixes every whitespace character. -/
theorem toLowerChar_of_ws (c : Char) (h : isWs c = true) : toLowerChar c = c := by
  simp only [isWs, decide_eq_true_eq] at h
  rcases h with rfl | rfl | rfl | rfl | rfl | rfl <;> decide

/-- Folding a token that is a whitespace-padded case variant of a
whitespace-free lowercase key yields exactly that key. -/
theorem foldTok_pad (ws1 ws2 s a : Str) (hmap : s.map toLowerChar = a)
    (h1 : ∀ x ∈ ws1, isWs x = true) (h2 : ∀ x ∈ ws2, isWs x = true)
    (ha : a ≠ []) (hanw : ∀ x ∈ a, isWs x = false) :
    foldTok (ws1 ++ s ++ ws2) = a := by
  have hne : s ≠ [] := by
    intro h
    subst h
    exact ha hmap.symm
  have hnw : ∀ x ∈ s, isWs x = false := by
    intro x hx
    by_contra hcon
    have hx' : isWs x = true := by revert hcon; cases isWs x <;> simp
    have hmem : toLowerChar x ∈ a := hmap ▸ List.mem_map_of_mem toLowerChar hx
    rw [toLowerChar_of_ws x hx'] at hmem
    simp [hanw x hmem] at hx'
  unfold foldTok
  rw [trimChars_pad ws1 ws2 s h1 h2 hne hnw, hmap]

/-- Division of any modelled value by `nan` yields `nan`. -/
theorem fdiv_nan (x : F) : fdiv x F.nan = F.nan := by
  cases x <;> rfl

/-- The energy formula of `calculate_energy` on nonzero finite canonical
values, written with squares. -/
theorem calculate_energy_finite (a b : ℚ) (ha : a ≠ 0) (hb : b ≠ 0) :
    calculate_energy (F.finite a) (F.finite b) =
      .ok (F.finite (neutronMassQ * b ^ 2 / (2 * a ^ 2))) := by
  have hta : fbeq (F.finite a) (F.finite 0) = false := by simp [fbeq, ha]
  have htb : fbeq (F.finite b) (F.finite 0) = false := by simp [fbeq, hb]
  have hden : (2 : ℚ) * a * a ≠ 0 := mul_ne_zero (mul_ne_zero two_ne_zero ha) ha
  simp only [calculate_energy, hta, htb, Bool.false_eq_true, if_false, fmul, fdiv]
  rw [if_neg hden]
  have : neutronMassQ * (b * b) / (2 * a * a) = neutronMassQ * b ^ 2 / (2 * a ^ 2) := by
    ring
  rw [this]

/-! ### Claim theorems -/

/-- C1: the claim states every parse or computation failure exits with
code 1.  The code violates it: a magnitude token that fails numeric parse
(for instance time magnitude "abc") makes `main` print the error to
standard error and then `return`, so the process exits with code 0, while
unit-parse and computation failures do call `std::process::exit(1)`.  This
theorem evaluates the modelled program at the failing inputs. -/
theorem c1_invalid_magnitude_exits_with_code_zero :
    runMain "10".data "m".data "abc".data "s".data "eV".data =
      .failure ("Error: parsing time value: invalid float literal".data) 0 ∧
    runMain "abc".data "m".data "1".data "s".data "eV".data =
      .failure ("Error: parsing length value: invalid float literal".data) 0 ∧
    runMain "10".data "furlong".data "1".data "s".data "eV".data =
      .failure ("Error: Unsupported length unit: furlong".data) 1 := by
  exact ⟨rfl, rfl, rfl⟩

/-- C2: `calculate_energy` checks time first: a time comparing equal to
`0.0` fails with the Time divide-by-zero error for any length; a time not
comparing equal to `0.0` with a length comparing equal to `0.0` fails with
the Length error; when both are zero the Time error is returned. -/
theorem c2_divide_by_zero_check_order :
    ∀ time length : F,
      (fbeq time (F.finite 0) = true →
        calculate_energy time length = .error .TimeIsZero) ∧
      (fbeq time (F.finite 0) = false → fbeq length (F.finite 0) = true →
        calculate_energy time length = .error .LengthIsZero) ∧
      calculate_energy (F.finite 0) (F.finite 0) = .error .TimeIsZero := by
  intro time length
  refine ⟨fun ht => ?_, fun ht hl => ?_, rfl⟩
  · simp [calculate_energy, ht]
  · simp [calculate_energy, ht, hl]

/-- Witness for C2 at concrete inputs: time 0 s with length 3 m gives the
Time error; time 2 s with length 0 m gives the Length error. -/
theorem c2_divide_by_zero_check_order_witness :
    calculate_energy (F.finite 0) (F.finite 3) = .error .TimeIsZero ∧
    calculate_energy (F.finite 2) (F.finite 0) = .error .LengthIsZero :=
  ⟨(c2_divide_by_zero_check_order (F.finite 0) (F.finite 3)).1 (by decide),
   (c2_divide_by_zero_check_order (F.finite 2) (F.finite 0)).2.1 (by decide) (by decide)⟩

/-- Evaluation of the numeric parse on the token "10". -/
theorem parseF32_ten : parseF32 "10".data = some (F.finite 10) := by
  have h : parseF32 "10".data = some (F.finite (1 * ((10 : ℕ) : ℚ))) := rfl
  rw [h]
  norm_num

/-- Evaluation of the numeric parse on the token "0". -/
theorem parseF32_zero : parseF32 "0".data = some (F.finite 0) := by
  have h : parseF32 "0".data = some (F.finite (1 * ((0 : ℕ) : ℚ))) := rfl
  rw [h]
  norm_num

/-- Evaluation of the numeric parse on the token "1". -/
theorem parseF32_one : parseF32 "1".data = some (F.finite 1) := by
  have h : parseF32 "1".data = some (F.finite (1 * ((1 : ℕ) : ℚ))) := rfl
  rw [h]
  norm_num

/-- Unfolding of `main` up to a divide-by-zero failure of the energy
computation. -/
theorem runMain_divzero (lt lut tt tut ut : Str) (lv tv L T : F)
    (e : DivideByZeroError) (h1 : parseF32 lt = some lv)
    (h2 : parseF32 tt = some tv) (h3 : parse_length lv (foldTok lut) = .ok L)
    (h4 : parse_time tv (foldTok tut) = .ok T)
    (h5 : calculate_energy T L = .error e) :
    runMain lt lut tt tut ut = .failure ("Error: ".data ++ divideByZeroMsg e) 1 := by
  simp only [runMain, h1, h2, h3, h4, h5]

/-- A time quantity built from magnitude 0 in seconds compares equal to
`0.0`, so the energy computation rejects it. -/
theorem calculate_energy_zero_seconds (L : F) :
    calculate_energy (quantityNew secondC (F.finite 0)) L = .error .TimeIsZero := by
  have hz : fbeq (quantityNew secondC (F.finite 0)) (F.finite 0) = true := by
    simp [quantityNew, fmul, fbeq, secondC]
  simp [calculate_energy, hz]

/-- C3 counterexample: with a zero time and the unsupported energy-unit
token "foo", the program reports the divide-by-zero error, not the
unsupported-energy-unit error the claim requires, because `main` calls
`calculate_energy` before `parse_energy_unit`. -/
theorem c3_energy_unit_parsed_after_formula_counterexample :
    runMain "10".data "m".data "0".data "s".data "foo".data =
      .failure ("Error: Time is zero, cannot divide by zero".data) 1 ∧
    ("Error: Time is zero, cannot divide by zero".data : Str) ≠
      "Error: Unsupported energy unit: foo".data := by
  refine ⟨?_, by decide⟩
  exact runMain_divzero "10".data "m".data "0".data "s".data "foo".data
    (F.finite 10) (F.finite 0) (quantityNew meterC (F.finite 10))
    (quantityNew secondC (F.finite 0)) .TimeIsZero parseF32_ten parseF32_zero
    rfl rfl (calculate_energy_zero_seconds _)

/-- C3 amended: length-unit and time-unit parse errors are raised before
the formula, but the output energy-unit token is parsed only after the
energy computation, so with a zero time the divide-by-zero error is
reported no matter what the energy-unit token is. -/
theorem c3_error_detection_order :
    (∀ u : Str, runMain "10".data "m".data "0".data "s".data u =
      .failure ("Error: Time is zero, cannot divide by zero".data) 1) ∧
    (∀ u : Str, runMain "10".data "badunit".data "0".data "s".data u =
      .failure ("Error: Unsupported length unit: badunit".data) 1) ∧
    (∀ u : Str, runMain "10".data "m".data "0".data "badunit".data u =
      .failure ("Error: Unsupported time unit: badunit".data) 1) := by
  refine ⟨fun u => ?_, fun _ => rfl, fun _ => rfl⟩
  exact runMain_divzero "10".data "m".data "0".data "s".data u
    (F.finite 10) (F.finite 0) (quantityNew meterC (F.finite 10))
    (quantityNew secondC (F.finite 0)) .TimeIsZero parseF32_ten parseF32_zero
    rfl rfl (calculate_energy_zero_seconds _)

/-- C4: for nonzero finite canonical values, `calculate_energy` returns
`Ok` with the energy `m_neutron · length² / (2 · time²)` in joules, where
`m_neutron` is the constant `1.67493e-27`. -/
theorem c4_energy_formula :
    ∀ a b : ℚ, a ≠ 0 → b ≠ 0 →
      calculate_energy (F.finite a) (F.finite b) =
        .ok (F.finite (neutronMassQ * b ^ 2 / (2 * a ^ 2))) ∧
      neutronMassQ = 167493 / 10 ^ 32 := by
  intro a b ha hb
  exact ⟨calculate_energy_finite a b ha hb, rfl⟩

/-- Witness for C4 at time 1 s and length 10 m (the spec's own scenario):
the energy is `8.37465e-26` joules. -/
theorem c4_energy_formula_witness :
    calculate_energy (F.finite 1) (F.finite 10) =
      .ok (F.finite (neutronMassQ * 10 ^ 2 / (2 * 1 ^ 2))) ∧
    neutronMassQ * 10 ^ 2 / (2 * 1 ^ 2) = 837465 / 10 ^ 31 := by
  exact ⟨(c4_energy_formula 1 10 (by decide) (by decide)).1, by norm_num [neutronMassQ]⟩

/-- C7: negative nonzero magnitudes are not rejected: the result equals
the result for the corresponding absolute values and is `Ok` with a
strictly positive energy. -/
theorem c7_negative_magnitudes_accepted :
    ∀ a b : ℚ, a ≠ 0 → b ≠ 0 → a < 0 ∨ b < 0 →
      calculate_energy (F.finite a) (F.finite b) =
        calculate_energy (F.finite |a|) (F.finite |b|) ∧
      ∃ e : ℚ, calculate_energy (F.finite a) (F.finite b) = .ok (F.finite e) ∧ 0 < e := by
  intro a b ha hb _
  have habs : |a| ≠ 0 := abs_ne_zero.mpr ha
  have hbabs : |b| ≠ 0 := abs_ne_zero.mpr hb
  have h1 := calculate_energy_finite a b ha hb
  have h2 := calculate_energy_finite |a| |b| habs hbabs
  have hsq : neutronMassQ * |b| ^ 2 / (2 * |a| ^ 2) = neutronMassQ * b ^ 2 / (2 * a ^ 2) := by
    rw [sq_abs, sq_abs]
  refine ⟨by rw [h1, h2, hsq], ⟨neutronMassQ * b ^ 2 / (2 * a ^ 2), h1, ?_⟩⟩
  have hm : (0 : ℚ) < neutronMassQ := by norm_num [neutronMassQ]
  have hb2 : (0 : ℚ) < b ^ 2 := by
    rw [← sq_abs]
    exact pow_pos (abs_pos.mpr hb) 2
  have ha2 : (0 : ℚ) < 2 * a ^ 2 := by
    have : (0 : ℚ) < a ^ 2 := by
      rw [← sq_abs]
      exact pow_pos (abs_pos.mpr ha) 2
    linarith
  exact div_pos (mul_pos hm hb2) ha2

/-- Witness for C7 at time -1 s and length -2 m: accepted, equal to the
result at 1 s and 2 m, and positive. -/
theorem c7_negative_magnitudes_accepted_witness :
    calculate_energy (F.finite (-1)) (F.finite (-2)) =
      calculate_energy (F.finite |(-1 : ℚ)|) (F.finite |(-2 : ℚ)|) ∧
    ∃ e : ℚ, calculate_energy (F.finite (-1)) (F.finite (-2)) = .ok (F.finite e) ∧ 0 < e :=
  c7_negative_magnitudes_accepted (-1) (-2) (by decide) (by decide) (Or.inl (by decide))

/-- Test for the non-finite modelled values (NaN or an infinity). -/
def isSpecial (x : F) : Bool :=
  x = F.nan ∨ x = F.inf ∨ x = F.neginf

/-- C10 counterexample: the claim says every non-finite time yields `Ok`
(in particular a NaN time yields `Ok` with a NaN energy), but with a NaN
time and a length comparing equal to `0.0` the length guard still fires
and `calculate_energy` returns the Length divide-by-zero error. -/
theorem c10_nan_time_zero_length_counterexample :
    calculate_energy F.nan (F.finite 0) = .error .LengthIsZero := rfl

/-- C10 amended: non-finite values are never rejected by the zero guards
themselves — NaN and infinities compare unequal to `0.0` — so whenever
neither operand compares equal to `0.0` the function returns `Ok`, and a
NaN time with such a length yields `Ok` with a NaN energy; but a zero
other operand still triggers its own guard. -/
theorem c10_nonfinite_passes_zero_guard :
    (∀ x : F, isSpecial x = true → fbeq x (F.finite 0) = false) ∧
    (∀ time length : F, fbeq time (F.finite 0) = false →
      fbeq length (F.finite 0) = false →
      ∃ e : F, calculate_energy time length = .ok e) ∧
    (∀ length : F, fbeq length (F.finite 0) = false →
      calculate_energy F.nan length = .ok F.nan) := by
  refine ⟨fun x hx => ?_, fun time length ht hl => ?_, fun length hl => ?_⟩
  · rcases x with q | _ | _ | _ <;> simp_all [isSpecial, fbeq]
  · exact ⟨fdiv (fmul (F.finite neutronMassQ) (fmul length length))
      (fmul (fmul (F.finite 2) time) time), by simp [calculate_energy, ht, hl]⟩
  · have hnum : ∀ y : F, fmul (F.finite neutronMassQ) (fmul y y) ≠ F.nan → True := fun _ _ => trivial
    have ht : fbeq F.nan (F.finite 0) = false := rfl
    simp only [calculate_energy, ht, hl, Bool.false_eq_true, if_false]
    have hden : fmul (fmul (F.finite 2) F.nan) F.nan = F.nan := rfl
    rw [hden, fdiv_nan]

/-- Witness for C10 amended at concrete inputs: `inf` passes the zero
guard, a NaN time with length 5 m yields `Ok NaN`, and nonzero finite
operands yield `Ok`. -/
theorem c10_nonfinite_passes_zero_guard_witness :
    fbeq F.inf (F.finite 0) = false ∧
    (∃ e : F, calculate_energy F.inf (F.finite 5) = .ok e) ∧
    calculate_energy F.nan (F.finite 5) = .ok F.nan :=
  ⟨c10_nonfinite_passes_zero_guard.1 F.inf (by decide),
   c10_nonfinite_passes_zero_guard.2.1 F.inf (F.finite 5) (by decide) (by decide),
   c10_nonfinite_passes_zero_guard.2.2 (F.finite 5) (by decide)⟩

/-- C8: quantity construction multiplies the magnitude by the unit's
fixed linear scale factor; the factors are 1 cm = 10⁻² m, 1 km = 1000 m,
1 ns = 10⁻⁹ s, 1 µs = 10⁻⁶ s, 1 ms = 10⁻³ s (and 1 for the base units);
converting magnitude 1 of any unit to the canonical base and back yields
exactly 1 (hence within floating-point tolerance). -/
theorem c8_scale_factors_and_round_trip :
    (∀ q : F, parse_length q "cm".data = .ok (quantityNew centimeterC q) ∧
      parse_length q "m".data = .ok (quantityNew meterC q) ∧
      parse_length q "km".data = .ok (quantityNew kilometerC q) ∧
      parse_time q "ns".data = .ok (quantityNew nanosecondC q) ∧
      parse_time q "mus".data = .ok (quantityNew microsecondC q) ∧
      parse_time q "ms".data = .ok (quantityNew millisecondC q) ∧
      parse_time q "s".data = .ok (quantityNew secondC q)) ∧
    (centimeterC = 1 / 10 ^ 2 ∧ kilometerC = 1000 ∧ meterC = 1 ∧
      nanosecondC = 1 / 10 ^ 9 ∧ microsecondC = 1 / 10 ^ 6 ∧
      millisecondC = 1 / 10 ^ 3 ∧ secondC = 1) ∧
    (∀ c ∈ [centimeterC, meterC, kilometerC, nanosecondC, microsecondC,
            millisecondC, secondC],
      fdiv (quantityNew c (F.finite 1)) (F.finite c) = F.finite 1) := by
  refine ⟨fun q => ⟨rfl, rfl, rfl, rfl, rfl, rfl, rfl⟩,
    ⟨by norm_num [centimeterC], rfl, rfl, rfl, rfl, rfl, rfl⟩, ?_⟩
  intro c hc
  have hround : ∀ x : ℚ, x ≠ 0 → fdiv (quantityNew x (F.finite 1)) (F.finite x) = F.finite 1 := by
    intro x hx
    simp [quantityNew, fmul, fdiv, hx, one_mul, div_self]
  fin_cases hc <;>
    exact hround _ (by norm_num [centimeterC, meterC, kilometerC, nanosecondC,
      microsecondC, millisecondC, secondC])

/-- Witness for C8 at the centimeter factor: 1 cm converts to 10⁻² m and
back to 1. -/
theorem c8_scale_factors_and_round_trip_witness :
    fdiv (quantityNew centimeterC (F.finite 1)) (F.finite centimeterC) = F.finite 1 :=
  c8_scale_factors_and_round_trip.2.2 centimeterC (by simp)

/-- C9: on success the program prints exactly one line
"Energy = <value> <abbreviation>" with a single space between value and
abbreviation, the abbreviation being the requested unit's standard symbol
(eV, keV, MeV, GeV, J); when `--unit` is omitted, clap substitutes the
default token "eV", which parses to the electronvolt unit. -/
theorem c9_output_line_and_default_unit :
    (∀ lt lut tt tut : Str,
      runMainDefaultUnit lt lut tt tut = runMain lt lut tt tut "eV".data) ∧
    parse_energy_unit (foldTok "eV".data) = .ok .Electronvolt ∧
    (energyAbbr .Electronvolt = "eV".data ∧ energyAbbr .Kiloelectronvolt = "keV".data ∧
      energyAbbr .Megaelectronvolt = "MeV".data ∧ energyAbbr .Gigaelectronvolt = "GeV".data ∧
      energyAbbr .Joule = "J".data) ∧
    (∀ lt lut tt tut ut : Str, ∀ lv tv L T E : F, ∀ U : EnergyUnit,
      parseF32 lt = some lv → parseF32 tt = some tv →
      parse_length lv (foldTok lut) = .ok L →
      parse_time tv (foldTok tut) = .ok T →
      calculate_energy T L = .ok E →
      parse_energy_unit (foldTok ut) = .ok U →
      runMain lt lut tt tut ut =
        .success ("Energy = ".data ++ renderF (convertEnergy E U)
          ++ " ".data ++ energyAbbr U)) := by
  refine ⟨fun _ _ _ _ => rfl, rfl, ⟨rfl, rfl, rfl, rfl, rfl⟩, ?_⟩
  intro lt lut tt tut ut lv tv L T E U h1 h2 h3 h4 h5 h6
  simp only [runMain, h1, h2, h3, h4, h5, h6]

/-- The energy value reached from length 10 m and time 1 s, kept in the
exact shape `calculate_energy` produces. -/
def sampleEnergy : F :=
  fdiv (fmul (F.finite neutronMassQ)
        (fmul (quantityNew meterC (F.finite 10)) (quantityNew meterC (F.finite 10))))
       (fmul (fmul (F.finite 2) (quantityNew secondC (F.finite 1)))
        (quantityNew secondC (F.finite 1)))

/-- Witness for C9: running on length 10 m, time 1 s with output unit "J"
prints the line "Energy = <value> J". -/
theorem c9_output_line_and_default_unit_witness :
    runMain "10".data "m".data "1".data "s".data "J".data =
      .success ("Energy = ".data ++ renderF (convertEnergy sampleEnergy .Joule)
        ++ " ".data ++ energyAbbr .Joule) := by
  refine c9_output_line_and_default_unit.2.2.2 "10".data "m".data "1".data "s".data "J".data
    (F.finite 10) (F.finite 1) (quantityNew meterC (F.finite 10))
    (quantityNew secondC (F.finite 1)) sampleEnergy .Joule
    parseF32_ten parseF32_one rfl rfl ?_ rfl
  have ht : fbeq (quantityNew secondC (F.finite 1)) (F.finite 0) = false := by
    simp [quantityNew, fmul, fbeq, secondC]
  have hl : fbeq (quantityNew meterC (F.finite 10)) (F.finite 0) = false := by
    simp [quantityNew, fmul, fbeq, meterC]
  simp only [calculate_energy, ht, hl, Bool.false_eq_true, if_false, sampleEnergy]

/-- The length alias table of `parse_length` (all match-arm patterns). -/
def lengthAliasKeys : List Str :=
  ["cm".data, "centimeter".data, "centimeters".data,
   "m".data, "meter".data, "meters".data,
   "km".data, "kilometer".data, "kilometers".data]

/-- The time alias table of `parse_time` (all match-arm patterns). -/
def timeAliasKeys : List Str :=
  ["ns".data, "nanosecond".data, "nanoseconds".data,
   "mus".data, "us".data, "microsecond".data, "microseconds".data,
   "ms".data, "millisecond".data, "milliseconds".data,
   "s".data, "second".data, "seconds".data]

/-- The energy alias table of `parse_energy_unit` (all match-arm patterns). -/
def energyAliasKeys : List Str :=
  ["ev".data, "electronvolt".data, "electronvolts".data,
   "kev".data, "kiloelectronvolt".data, "kiloelectronvolts".data,
   "mev".data, "megaelectronvolt".data, "megaelectronvolts".data,
   "gev".data, "gigaelectronvolt".data, "gigaelectronvolts".data,
   "j".data, "joule".data, "joules".data]

/-- C6: a token whose case-folded, trimmed form matches none of a
domain's aliases makes that domain's parser fail with `UnsupportedUnit`
naming that domain and carrying the token the parser was given, never a
default unit. -/
theorem c6_unsupported_unit_errors :
    ∀ u : Str,
      (foldTok u ∉ lengthAliasKeys →
        ∀ q : F, parse_length q u = .error (.Length u)) ∧
      (foldTok u ∉ timeAliasKeys →
        ∀ q : F, parse_time q u = .error (.Time u)) ∧
      (foldTok u ∉ energyAliasKeys →
        parse_energy_unit u = .error (.Energy u)) := by
  intro u
  refine ⟨fun h q => ?_, fun h q => ?_, fun h => ?_⟩
  · simp only [parse_length]
    split_ifs with h1 h2 h3
    · rcases h1 with hx | hx | hx <;>
        exact absurd (show foldTok u ∈ lengthAliasKeys by rw [hx]; decide) h
    · rcases h2 with hx | hx | hx <;>
        exact absurd (show foldTok u ∈ lengthAliasKeys by rw [hx]; decide) h
    · rcases h3 with hx | hx | hx <;>
        exact absurd (show foldTok u ∈ lengthAliasKeys by rw [hx]; decide) h
    · rfl
  · simp only [parse_time]
    split_ifs with h1 h2 h3 h4
    · rcases h1 with hx | hx | hx <;>
        exact absurd (show foldTok u ∈ timeAliasKeys by rw [hx]; decide) h
    · rcases h2 with hx | hx | hx | hx <;>
        exact absurd (show foldTok u ∈ timeAliasKeys by rw [hx]; decide) h
    · rcases h3 with hx | hx | hx <;>
        exact absurd (show foldTok u ∈ timeAliasKeys by rw [hx]; decide) h
    · rcases h4 with hx | hx | hx <;>
        exact absurd (show foldTok u ∈ timeAliasKeys by rw [hx]; decide) h
    · rfl
  · simp only [parse_energy_unit]
    split_ifs with h1 h2 h3 h4 h5
    · rcases h1 with hx | hx | hx <;>
        exact absurd (show foldTok u ∈ energyAliasKeys by rw [hx]; decide) h
    · rcases h2 with hx | hx | hx <;>
        exact absurd (show foldTok u ∈ energyAliasKeys by rw [hx]; decide) h
    · rcases h3 with hx | hx | hx <;>
        exact absurd (show foldTok u ∈ energyAliasKeys by rw [hx]; decide) h
    · rcases h4 with hx | hx | hx <;>
        exact absurd (show foldTok u ∈ energyAliasKeys by rw [hx]; decide) h
    · rcases h5 with hx | hx | hx <;>
        exact absurd (show foldTok u ∈ energyAliasKeys by rw [hx]; decide) h
    · rfl

/-- Witness for C6 on the token "furlong": every parser rejects it,
naming its own domain and carrying the token. -/
theorem c6_unsupported_unit_errors_witness :
    parse_length (F.finite 1) "furlong".data = .error (.Length "furlong".data) ∧
    parse_time (F.finite 1) "furlong".data = .error (.Time "furlong".data) ∧
    parse_energy_unit "furlong".data = .error (.Energy "furlong".data) :=
  ⟨(c6_unsupported_unit_errors "furlong".data).1 (by decide) (F.finite 1),
   (c6_unsupported_unit_errors "furlong".data).2.1 (by decide) (F.finite 1),
   (c6_unsupported_unit_errors "furlong".data).2.2 (by decide)⟩

/-- Each length alias paired with its unit's canonical symbol (the first
pattern of its match arm). -/
def lengthAliasPairs : List (Str × Str) :=
  [("cm".data, "cm".data), ("centimeter".data, "cm".data), ("centimeters".data, "cm".data),
   ("m".data, "m".data), ("meter".data, "m".data), ("meters".data, "m".data),
   ("km".data, "km".data), ("kilometer".data, "km".data), ("kilometers".data, "km".data)]

/-- Each time alias paired with its unit's canonical symbol. -/
def timeAliasPairs : List (Str × Str) :=
  [("ns".data, "ns".data), ("nanosecond".data, "ns".data), ("nanoseconds".data, "ns".data),
   ("mus".data, "mus".data), ("us".data, "mus".data), ("microsecond".data, "mus".data),
   ("microseconds".data, "mus".data),
   ("ms".data, "ms".data), ("millisecond".data, "ms".data), ("milliseconds".data, "ms".data),
   ("s".data, "s".data), ("second".data, "s".data), ("seconds".data, "s".data)]

/-- Each energy alias paired with its unit's canonical symbol. -/
def energyAliasPairs : List (Str × Str) :=
  [("ev".data, "ev".data), ("electronvolt".data, "ev".data), ("electronvolts".data, "ev".data),
   ("kev".data, "kev".data), ("kiloelectronvolt".data, "kev".data),
   ("kiloelectronvolts".data, "kev".data),
   ("mev".data, "mev".data), ("megaelectronvolt".data, "mev".data),
   ("megaelectronvolts".data, "mev".data),
   ("gev".data, "gev".data), ("gigaelectronvolt".data, "gev".data),
   ("gigaelectronvolts".data, "gev".data),
   ("j".data, "j".data), ("joule".data, "j".data), ("joules".data, "j".data)]

/-- C5: each parser's accept/reject decision and accepted unit depend
only on the case-folded, trimmed form of the token; every alias of a unit
parses, in any letter case and under arbitrary leading and trailing
whitespace, exactly as that unit's canonical symbol does; in particular
"CM", " cm " and "centimeters" all yield the centimeter quantity. -/
theorem c5_alias_case_and_whitespace :
    (∀ (q : F) (u v : Str), foldTok u = foldTok v →
      (parse_length q u).toOption = (parse_length q v).toOption ∧
      (parse_time q u).toOption = (parse_time q v).toOption ∧
      (parse_energy_unit u).toOption = (parse_energy_unit v).toOption) ∧
    (∀ ws1 ws2 s : Str, ∀ p ∈ lengthAliasPairs,
      (∀ x ∈ ws1, isWs x = true) → (∀ x ∈ ws2, isWs x = true) →
      s.map toLowerChar = p.1 →
      ∀ q : F, parse_length q (ws1 ++ s ++ ws2) = parse_length q p.2) ∧
    (∀ ws1 ws2 s : Str, ∀ p ∈ timeAliasPairs,
      (∀ x ∈ ws1, isWs x = true) → (∀ x ∈ ws2, isWs x = true) →
      s.map toLowerChar = p.1 →
      ∀ q : F, parse_time q (ws1 ++ s ++ ws2) = parse_time q p.2) ∧
    (∀ ws1 ws2 s : Str, ∀ p ∈ energyAliasPairs,
      (∀ x ∈ ws1, isWs x = true) → (∀ x ∈ ws2, isWs x = true) →
      s.map toLowerChar = p.1 →
      parse_energy_unit (ws1 ++ s ++ ws2) = parse_energy_unit p.2) ∧
    (∀ q : F, parse_length q "CM".data = .ok (quantityNew centimeterC q) ∧
      parse_length q " cm ".data = .ok (quantityNew centimeterC q) ∧
      parse_length q "centimeters".data = .ok (quantityNew centimeterC q) ∧
      parse_length q "cm".data = .ok (quantityNew centimeterC q)) := by
  refine ⟨?_, ?_, ?_, ?_, fun q => ⟨rfl, rfl, rfl, rfl⟩⟩
  · intro q u v h
    refine ⟨?_, ?_, ?_⟩
    · simp only [parse_length]
      rw [h]
      split_ifs <;> rfl
    · simp only [parse_time]
      rw [h]
      split_ifs <;> rfl
    · simp only [parse_energy_unit]
      rw [h]
      split_ifs <;> rfl
  · intro ws1 ws2 s p hmem h1 h2 hmap
    fin_cases hmem <;>
    · intro q
      have hf := foldTok_pad ws1 ws2 s _ hmap h1 h2 (by decide) (by decide)
      simp only [parse_length, hf]
      rfl
  · intro ws1 ws2 s p hmem h1 h2 hmap
    fin_cases hmem <;>
    · intro q
      have hf := foldTok_pad ws1 ws2 s _ hmap h1 h2 (by decide) (by decide)
      simp only [parse_time, hf]
      rfl
  · intro ws1 ws2 s p hmem h1 h2 hmap
    fin_cases hmem <;>
    · have hf := foldTok_pad ws1 ws2 s _ hmap h1 h2 (by decide) (by decide)
      simp only [parse_energy_unit, hf]
      rfl

/-- Witness for C5: " CM " (upper case, padded with spaces) parses as the
canonical symbol "cm" does, and the fold-equality congruence applies to
"CM" versus "cm". -/
theorem c5_alias_case_and_whitespace_witness :
    parse_length (F.finite 1) (" ".data ++ "CM".data ++ " ".data) =
      parse_length (F.finite 1) "cm".data ∧
    (parse_length (F.finite 1) "CM".data).toOption =
      (parse_length (F.finite 1) "cm".data).toOption :=
  ⟨c5_alias_case_and_whitespace.2.1 " ".data " ".data "CM".data ("cm".data, "cm".data)
      (by decide) (by decide) (by decide) (by decide) (F.finite 1),
   (c5_alias_case_and_whitespace.1 (F.finite 1) "CM".data "cm".data (by decide)).1⟩
